import Mathlib

/-!
Verification development for the Conversational RAG pipeline
(`src/RAG/RAG_Pipeline.py`, `src/RAG/RAG_Indexing.py`,
`src/RAG/VectorStore/*`, `src/RAG/Utils/ConfigReader.py`).

The Python code is shallowly embedded: stateful objects become explicit
state records, external collaborators (the LLM backend, the PDF loader,
the semantic splitter, the vector database, the file system) become
injected outcome parameters, and generators become functions returning
the finite list of yielded fragments together with the post-state.
-/

/-- Role tag of a chat message, as stored by langchain's
`ChatMessageHistory`: `HumanMessage` or `AIMessage`. -/
inductive Role where
  | human
  | assistant
deriving DecidableEq, Repr

/-- One chat message: role plus text. -/
structure Message where
  role : Role
  text : String
deriving DecidableEq, Repr

/-- Section `self.history` of `RAG_Pipeline` is a Python dict mapping
session id to a `ChatMessageHistory`; embedded as an association list
with unique keys (Python dict semantics). `histLookup` is `history[sid]`
/ the `in` test. -/
def histLookup : List (String × List Message) → String → Option (List Message)
  | [], _ => none
  | (k, v) :: rest, sid => if k = sid then some v else histLookup rest sid

/-- Dict assignment `history[sid] = v`: replaces in place when the key is
present, appends when absent. -/
def histSet : List (String × List Message) → String → List Message → List (String × List Message)
  | [], sid, v => [(sid, v)]
  | (k, w) :: rest, sid, v =>
      if k = sid then (sid, v) :: rest else (k, w) :: histSet rest sid v

/-- Dict deletion `del history[sid]`: removes the entry for `sid`.
On the unique-key lists that embed Python dicts this coincides with
filtering out every pair keyed `sid`. -/
def histRemove (h : List (String × List Message)) (sid : String) :
    List (String × List Message) :=
  h.filter (fun kv => kv.1 != sid)

/-- State of a `RAG_Pipeline` object (`src/RAG/RAG_Pipeline.py`).

`llmModel`/`llmStreaming` embed `self.llm` (a `ChatGroq` with a model
name and a streaming flag).  `ragChainLlm` is the model captured inside
`self.ragChain` when it was composed (`promptTemplate | self.llm |
StrOutputParser()` at lines 46-50 captures the llm *object* present at
composition time; the composition is never redone).  `chainLlm` is the
model that `self.chain` (the `RunnableWithMessageHistory` wrapping
`self.ragChain`) actually invokes.  `history` embeds `self.history`. -/
structure PipelineState where
  llmModel : String
  llmStreaming : Bool
  ragChainLlm : String
  chainLlm : String
  history : List (String × List Message)
deriving DecidableEq, Repr

/-- Embeds `RAG_Pipeline.__init__` (lines 35-56): builds the llm from
`model_name` with `streaming=True`, an empty history dict, composes
`ragChain` with that llm and wraps it in `RunnableWithMessageHistory`. -/
def RAG_Pipeline_init (model_name : String) : PipelineState :=
  { llmModel := model_name
    llmStreaming := true
    ragChainLlm := model_name
    chainLlm := model_name
    history := [] }

/-- Embeds `RAG_Pipeline.get_session_history` (lines 58-83): if `session_id`
is absent a fresh empty `ChatMessageHistory` is stored first; returns
that session's message list together with the (possibly updated)
pipeline state. -/
def get_session_history (st : PipelineState) (session_id : String) :
    List Message × PipelineState :=
  match histLookup st.history session_id with
  | some msgs => (msgs, st)
  | none => ([], { st with history := histSet st.history session_id [] })

/-- Embeds `RAG_Pipeline.clear_session_history` (lines 135-156):
`if session_id in self.history: del self.history[session_id]`. -/
def clear_session_history (st : PipelineState) (session_id : String) : PipelineState :=
  if (histLookup st.history session_id).isSome then
    { st with history := histRemove st.history session_id }
  else st

/-- Embeds `RAG_Pipeline.change_llm_type` (lines 158-187): reassigns
`self.llm = ChatGroq(model_name=...)` (without `streaming=True`) and
rebuilds `self.chain = RunnableWithMessageHistory(self.ragChain, ...)`.
`self.ragChain` itself is NOT recomposed, so the model inside it — and
hence the model the new chain invokes — stays whatever was captured at
`__init__` time. -/
def change_llm_type (st : PipelineState) (model_name : String) : PipelineState :=
  { st with
      llmModel := model_name
      llmStreaming := false
      chainLlm := st.ragChainLlm }

/-- Embeds `RAG_Pipeline.get_llm_type` (lines 189-196): returns
`self.llm.model_name`. -/
def get_llm_type (st : PipelineState) : String := st.llmModel

/-- One retrieved context chunk (a langchain `Document`). -/
structure Chunk where
  text : String
  metadata : List (String × String)
deriving DecidableEq, Repr

/-- Outcome of `self.rag_indexing.get_retriever().invoke(user_input)`
(line 112): either a context list, or an exception whose message is
`msg` (caught at lines 113-115). -/
inductive RetrievalOutcome where
  | ok (ctx : List Chunk)
  | err (msg : String)
deriving DecidableEq, Repr

/-- Outcome of iterating `self.chain.stream(...)` (lines 119-124):
either the full list of chunks the chain produces, or the chunks
produced before an exception with message `msg` is raised mid-stream
(caught at lines 132-133). -/
inductive GenOutcome where
  | ok (fragments : List String)
  | err (pre : List String) (msg : String)
deriving DecidableEq, Repr

/-- External outcomes injected into one `stream` call: what the
retriever returns and what the generation chain produces. -/
structure StreamEnv where
  retrieval : RetrievalOutcome
  gen : GenOutcome
deriving DecidableEq, Repr

/-- Result of fully consuming the generator returned by
`RAG_Pipeline.stream`: the yielded fragments, whether the generation
chain was invoked at all and with which model, the prior messages the
chain injected into the prompt's `History` placeholder, and the
pipeline state afterwards. -/
structure StreamResult where
  fragments : List String
  genInvoked : Bool
  genModel : Option String
  promptHistory : Option (List Message)
  state : PipelineState
deriving DecidableEq, Repr

/-- Embeds `RAG_Pipeline.stream` (lines 85-133), fully consumed.

Retrieval failure yields the single fragment
`"Error retrieving context: " ++ e` and returns (lines 113-115) —
the chain is never touched.  Otherwise the chain
(`RunnableWithMessageHistory`) reads the session history via
`get_session_history` (creating it when absent), injects it into the
prompt, and runs `ragChain` with the llm captured there.  The generator
yields only truthy chunks (`if chunk:` line 123).  On successful
completion of the stream the wrapper appends the `Question` as a Human
message and the aggregated output as an Assistant message to the
session history; if the chain raises mid-stream the handler at lines
132-133 yields `"Error generating response: " ++ e` and nothing is
appended. -/
def stream (env : StreamEnv) (st : PipelineState) (session_id user_input : String) :
    StreamResult :=
  match env.retrieval with
  | RetrievalOutcome.err e =>
      { fragments := ["Error retrieving context: " ++ e]
        genInvoked := false
        genModel := none
        promptHistory := none
        state := st }
  | RetrievalOutcome.ok _ctx =>
      let msgs := (get_session_history st session_id).1
      let st1 := (get_session_history st session_id).2
      match env.gen with
      | GenOutcome.ok frags =>
          let answer := String.join frags
          { fragments := frags.filter (fun c => c != "")
            genInvoked := true
            genModel := some st.chainLlm
            promptHistory := some msgs
            state :=
              { st1 with
                  history := histSet st1.history session_id
                    (msgs ++ [Message.mk Role.human user_input,
                              Message.mk Role.assistant answer]) } }
      | GenOutcome.err pre e =>
          { fragments := pre.filter (fun c => c != "") ++ ["Error generating response: " ++ e]
            genInvoked := true
            genModel := some st.chainLlm
            promptHistory := some msgs
            state := st1 }

/-- The message list currently stored for `sid` (empty when the session
has no entry). -/
def historyOf (st : PipelineState) (sid : String) : List Message :=
  (histLookup st.history sid).getD []

/-- Whether a `stream` call with these external outcomes succeeds
(retrieval returns and the chain's stream completes without raising). -/
def successEnv (env : StreamEnv) : Bool :=
  match env.retrieval, env.gen with
  | RetrievalOutcome.ok _, GenOutcome.ok _ => true
  | _, _ => false

/-- The answer a successful call commits to history: the concatenation
of all chunks the chain produced. -/
def envAnswer (env : StreamEnv) : String :=
  match env.gen with
  | GenOutcome.ok frags => String.join frags
  | GenOutcome.err _ _ => ""

/-- Runs a sequence of fully-consumed `stream` calls on one session,
threading the pipeline state. -/
def runCalls (st : PipelineState) (sid : String) : List (StreamEnv × String) → PipelineState
  | [] => st
  | (env, q) :: rest => runCalls (stream env st sid q).state sid rest

/-- Strategy a text splitter implements: the semantic chunker
(`SemanticChunker(embeddings, breakpoint_threshold_type,
breakpoint_threshold_amount)`) or a fixed sliding window
(`RecursiveCharacterTextSplitter(chunk_size, chunk_overlap)`). -/
inductive SplitStrategy where
  | semantic (thresholdType : String) (amount : Nat)
  | fixedWindow (size overlap : Nat)
deriving DecidableEq, Repr

/-- The RAG section of the YAML configuration (`self.config`, an
arbitrary key/value mapping read by `ConfigReader`). -/
abbrev RAGConfig := List (String × String)

/-- The splitter `RAG_Indexing.index_pdf` constructs
(`src/RAG/RAG_Indexing.py` lines 82-87): a `SemanticChunker` with
`breakpoint_threshold_type="gradient"` and
`breakpoint_threshold_amount=1`, unconditionally — the configuration is
not consulted, and the `RecursiveCharacterTextSplitter` imported at
line 7 is never instantiated. -/
def splitterUsed (_cfg : RAGConfig) : SplitStrategy :=
  SplitStrategy.semantic "gradient" 1

/-- State of the vector store as `index_pdf` observes it: the chunks it
holds (`add_documents` appends them in one call). -/
structure ChromaStoreState where
  docs : List Chunk
deriving DecidableEq, Repr

/-- The three input shapes `index_pdf` accepts (lines 59-70), plus the
unexpected-type case that raises `ValueError`. -/
inductive PdfInput where
  | uploadedFile (origName : String)
  | path (p : String)
  | rawBytes (content : List Nat)
  | other
deriving DecidableEq, Repr

/-- External outcomes injected into one `index_pdf` call: the temp-file
name `tempfile.NamedTemporaryFile` allocates, whether
`pdf_path.read()` and `tmp_file.write(...)` succeed, what
`PyPDFLoader(...).load()` returns (`none` = raises), what
`semantic_splitter.split_documents(documents)` returns (`none` =
raises), and whether `vector_store.add_documents` succeeds. -/
structure IngestEnv where
  tempName : String
  readOk : Bool
  writeOk : Bool
  loadResult : Option (List String)
  splitResult : Option (List Chunk)
  addOk : Bool
deriving DecidableEq, Repr

/-- How the `try:` body of `index_pdf` (lines 55-98) exits: it runs to
completion having added `n` chunks, it takes the bare `return` for an
empty chunk list (lines 89-91), or it raises (caught at lines 99-101). -/
inductive BodyExit where
  | ok (n : Nat)
  | emptyReturn
  | exn
deriving DecidableEq, Repr

/-- State at the moment the `try:` body of `index_pdf` exits: how it
exited, the value of the local `temp_file_path` (which the `finally:`
block inspects), the files on disk, the store, and the splitter
strategy if one was constructed. -/
structure BodyResult where
  exit : BodyExit
  tempPath : Option String
  fs : List String
  store : ChromaStoreState
  strategy : Option SplitStrategy
deriving DecidableEq, Repr

/-- Embeds `os.path.basename`: the component after the last `/`. -/
def basename (p : String) : String :=
  String.mk ((p.data.reverse.takeWhile (fun c => c != '/')).reverse)

/-- The loading-through-insertion part of the `try:` body (lines
72-98), entered with `temp_file_path = some temp` and the file system
`fs` as left by materialization. -/
def index_pdf_load (cfg : RAGConfig) (env : IngestEnv) (input : PdfInput)
    (temp : String) (fs : List String) (store : ChromaStoreState) : BodyResult :=
  match env.loadResult with
  | none => BodyResult.mk BodyExit.exn (some temp) fs store none
  | some _documents =>
      let filename0 := basename temp
      let filename :=
        if filename0.startsWith "tmp" then
          match input with
          | PdfInput.uploadedFile origName => origName
          | _ => filename0
        else filename0
      let strat := splitterUsed cfg
      match env.splitResult with
      | none => BodyResult.mk BodyExit.exn (some temp) fs store (some strat)
      | some texts =>
          if texts.isEmpty then
            BodyResult.mk BodyExit.emptyReturn (some temp) fs store (some strat)
          else
            let tagged := texts.map (fun c =>
              { c with metadata :=
                  c.metadata ++ [("source_file", filename), ("document_type", "pdf")] })
            if env.addOk then
              BodyResult.mk (BodyExit.ok tagged.length) (some temp) fs
                (ChromaStoreState.mk (store.docs ++ tagged)) (some strat)
            else
              BodyResult.mk BodyExit.exn (some temp) fs store (some strat)

/-- The `try:` body of `index_pdf` (lines 55-98).  Materialization
(lines 58-70): an `UploadedFile` or raw bytes are written to a fresh
`NamedTemporaryFile(delete=False)` — the file appears on disk when the
context manager opens, `pdf_path.read()` and `tmp_file.write(...)` run
inside it, and `temp_file_path = tmp_file.name` is assigned only after
the write, so if read or write raises the file exists but
`temp_file_path` is still `None`.  A `str` input is used as the path
directly; any other type raises `ValueError`. -/
def index_pdf_body (cfg : RAGConfig) (env : IngestEnv) (input : PdfInput)
    (fs : List String) (store : ChromaStoreState) : BodyResult :=
  match input with
  | PdfInput.uploadedFile _ =>
      let fs1 := env.tempName :: fs
      if env.readOk && env.writeOk then
        index_pdf_load cfg env input env.tempName fs1 store
      else
        BodyResult.mk BodyExit.exn none fs1 store none
  | PdfInput.path p =>
      index_pdf_load cfg env input p fs store
  | PdfInput.rawBytes _ =>
      let fs1 := env.tempName :: fs
      if env.writeOk then
        index_pdf_load cfg env input env.tempName fs1 store
      else
        BodyResult.mk BodyExit.exn none fs1 store none
  | PdfInput.other =>
      BodyResult.mk BodyExit.exn none fs store none

/-- The `except Exception` clause (lines 99-101): every exception the
body raises is caught, logged to stderr and not re-raised.  Returns
(raised-to-caller, error-logged). -/
def catchAll : BodyExit → Bool × Bool
  | BodyExit.exn => (false, true)
  | BodyExit.ok _ => (false, false)
  | BodyExit.emptyReturn => (false, false)

/-- Observable result of a whole `index_pdf` call: the Python return
value (`ret`), whether an exception escaped to the caller, whether an
error was logged, the files on disk afterwards, and the store. -/
structure IndexOutcome where
  ret : Option Nat
  raised : Bool
  errorLogged : Bool
  fs : List String
  store : ChromaStoreState
deriving DecidableEq, Repr

/-- Embeds `RAG_Indexing.index_pdf` (lines 39-110): the `try:` body, the
catch-all `except`, then the `finally:` block (lines 102-110) which
removes `temp_file_path` when it is set, is a string, differs from
`pdf_path`, and exists on disk.  Every `return` in the source is bare,
so the Python return value is always `None` (`ret := none`). -/
def index_pdf (cfg : RAGConfig) (env : IngestEnv) (input : PdfInput)
    (fs : List String) (store : ChromaStoreState) : IndexOutcome :=
  let b := index_pdf_body cfg env input fs store
  let rl := catchAll b.exit
  let fs2 :=
    match b.tempPath with
    | none => b.fs
    | some t =>
        let sameAsInput :=
          match input with
          | PdfInput.path p => t == p
          | _ => false
        if sameAsInput then b.fs else b.fs.filter (fun x => x != t)
  IndexOutcome.mk none rl.1 rl.2 fs2 b.store

/-- A loaded YAML configuration (an arbitrary key/value mapping). -/
abbrev ConfigData := List (String × String)

/-- A constructed `ConfigReader` object
(`src/RAG/Utils/ConfigReader.py` lines 61-64): the resolved absolute
path of its config file and the data loaded from it. -/
structure ConfigReaderInst where
  config_file : String
  config : ConfigData
deriving DecidableEq, Repr

/-- Path resolution in `ConfigReader.__init__` (line 62):
`os.path.abspath(os.path.join(os.path.dirname(__file__), "..", "..",
config_file))` — the argument resolved against the `src/` directory. -/
def resolveConfigPath (config_file : String) : String :=
  "src/" ++ config_file

/-- Embeds `Singleton.__call__` applied to `ConfigReader`
(`src/RAG/Utils/ConfigReader.py` lines 33-37 and 61-64).  `reg` is the
`Singleton._instances` slot for the `ConfigReader` class; `loadEnv`
maps a file path to its parsed YAML contents (`load_config`).  When an
instance is already registered it is returned unchanged and the
`config_file` argument is ignored; otherwise `__init__` runs on
`config_file` and the fresh instance is registered. -/
def ConfigReader_call (loadEnv : String → ConfigData)
    (reg : Option ConfigReaderInst) (config_file : String) :
    ConfigReaderInst × Option ConfigReaderInst :=
  match reg with
  | some inst => (inst, some inst)
  | none =>
      let inst := ConfigReaderInst.mk (resolveConfigPath config_file)
        (loadEnv (resolveConfigPath config_file))
      (inst, some inst)

/-- A sequence of `ConfigReader(...)` constructions, threading the
singleton registry. -/
def ConfigReader_calls (loadEnv : String → ConfigData)
    (reg : Option ConfigReaderInst) : List String → Option ConfigReaderInst
  | [] => reg
  | f :: fs => ConfigReader_calls loadEnv (ConfigReader_call loadEnv reg f).2 fs

/-- The `ConfigReader(config_file=config_file)` construction performed
by `RAG_Indexing.__init__` (`src/RAG/RAG_Indexing.py` line 34). -/
def RAG_Indexing_init_config (loadEnv : String → ConfigData)
    (reg : Option ConfigReaderInst) (config_file : String) :
    ConfigReaderInst × Option ConfigReaderInst :=
  ConfigReader_call loadEnv reg config_file

theorem histLookup_histSet_self (h : List (String × List Message)) (sid : String)
    (v : List Message) : histLookup (histSet h sid v) sid = some v := by
  induction h with
  | nil => simp [histSet, histLookup]
  | cons kv rest ih =>
      obtain ⟨k, w⟩ := kv
      by_cases hk : k = sid
      · simp [histSet, hk, histLookup]
      · simp [histSet, hk, histLookup, ih]

theorem histLookup_histRemove (h : List (String × List Message)) (sid : String) :
    histLookup (histRemove h sid) sid = none := by
  induction h with
  | nil => simp [histRemove, histLookup]
  | cons kv rest ih =>
      obtain ⟨k, w⟩ := kv
      by_cases hk : k = sid
      · subst hk
        simp only [histRemove, List.filter_cons] at ih ⊢
        simpa using ih
      · simp only [histRemove, List.filter_cons] at ih ⊢
        simp [hk, histLookup, ih]

theorem histRemove_absent (h : List (String × List Message)) (sid : String)
    (habs : histLookup h sid = none) : histRemove h sid = h := by
  induction h with
  | nil => simp [histRemove]
  | cons kv rest ih =>
      obtain ⟨k, w⟩ := kv
      by_cases hk : k = sid
      · simp [histLookup, hk] at habs
      · simp only [histLookup, hk, if_neg, ite_false] at habs
        simp only [histRemove, List.filter_cons] at ih ⊢
        simp [hk, ih habs]

theorem get_session_history_fst (st : PipelineState) (sid : String) :
    (get_session_history st sid).1 = historyOf st sid := by
  unfold get_session_history historyOf
  cases h : histLookup st.history sid <;> simp

theorem get_session_history_snd (st : PipelineState) (sid : String) :
    historyOf (get_session_history st sid).2 sid = historyOf st sid := by
  unfold get_session_history historyOf
  cases h : histLookup st.history sid <;> simp [histLookup_histSet_self, h]

/-- The two messages one successful `stream` call appends to the
session history: the question as a Human message, the concatenated
answer as an Assistant message. -/
def callPair (q : String) (env : StreamEnv) : List Message :=
  [Message.mk Role.human q, Message.mk Role.assistant (envAnswer env)]

theorem stream_success_history (env : StreamEnv) (st : PipelineState)
    (sid q : String) (hs : successEnv env = true) :
    historyOf (stream env st sid q).state sid = historyOf st sid ++ callPair q env := by
  cases env with
  | mk retrieval gen =>
      cases retrieval with
      | err e => simp [successEnv] at hs
      | ok ctx =>
          cases gen with
          | err pre e => simp [successEnv] at hs
          | ok frags =>
              unfold stream
              simp only [historyOf, histLookup_histSet_self, Option.getD_some]
              rw [get_session_history_fst]
              simp [callPair, envAnswer, historyOf]

theorem stream_failure_history (env : StreamEnv) (st : PipelineState)
    (sid q : String) (hf : successEnv env = false) :
    historyOf (stream env st sid q).state sid = historyOf st sid := by
  cases env with
  | mk retrieval gen =>
      cases retrieval with
      | err e => unfold stream; rfl
      | ok ctx =>
          cases gen with
          | ok frags => simp [successEnv] at hf
          | err pre e =>
              unfold stream
              simp only []
              exact get_session_history_snd st sid

theorem runCalls_success_history (calls : List (StreamEnv × String))
    (st : PipelineState) (sid : String)
    (hsucc : ∀ c ∈ calls, successEnv c.1 = true) :
    historyOf (runCalls st sid calls) sid
      = historyOf st sid ++ (calls.map (fun c => callPair c.2 c.1)).join := by
  induction calls generalizing st with
  | nil => simp [runCalls]
  | cons c rest ih =>
      obtain ⟨env, q⟩ := c
      have h1 : successEnv env = true := hsucc (env, q) (List.mem_cons_self _ _)
      have h2 : ∀ d ∈ rest, successEnv d.1 = true :=
        fun d hd => hsucc d (List.mem_cons_of_mem _ hd)
      simp only [runCalls]
      rw [ih _ h2, stream_success_history env st sid q h1]
      simp [List.join]

theorem callPair_join_length (calls : List (StreamEnv × String)) :
    ((calls.map (fun c => callPair c.2 c.1)).join).length = 2 * calls.length := by
  induction calls with
  | nil => simp
  | cons c rest ih =>
      show (callPair c.2 c.1 ++ (rest.map (fun c => callPair c.2 c.1)).join).length = _
      rw [List.length_append, ih]
      simp only [callPair, List.length_cons, List.length_nil, List.length_cons]
      omega

theorem stream_promptHistory (env : StreamEnv) (st : PipelineState) (sid q : String)
    (ctx : List Chunk) (h : env.retrieval = RetrievalOutcome.ok ctx) :
    (stream env st sid q).promptHistory = some (historyOf st sid) := by
  obtain ⟨r, g⟩ := env
  have h' : r = RetrievalOutcome.ok ctx := h
  subst h'
  cases g with
  | ok frags =>
      show some ((get_session_history st sid).1) = some (historyOf st sid)
      rw [get_session_history_fst]
  | err pre e =>
      show some ((get_session_history st sid).1) = some (historyOf st sid)
      rw [get_session_history_fst]

/-- C1: after `change_llm_type` the very next `stream` call does NOT
generate with the newly selected model.  `change_llm_type` rebuilds
`self.chain` around the old `self.ragChain`, whose composed llm is the
one captured at `__init__`; only `get_llm_type` reports the new name.
Evaluated at the concrete failing input: init with the default model,
switch, then one successful streamed turn. -/
theorem C1_change_llm_type_not_used_by_next_stream :
    get_llm_type (change_llm_type (RAG_Pipeline_init "openai/gpt-oss-120b")
        "llama-3.3-70b-versatile") = "llama-3.3-70b-versatile"
  ∧ (stream (StreamEnv.mk (RetrievalOutcome.ok []) (GenOutcome.ok ["Hello"]))
        (change_llm_type (RAG_Pipeline_init "openai/gpt-oss-120b") "llama-3.3-70b-versatile")
        "s1" "hi").genModel = some "openai/gpt-oss-120b" :=
  ⟨rfl, rfl⟩

/-- C2: any sequence of N fully-consumed successful `stream` calls on
one session turns an empty history into exactly the 2N messages, in
call order, one Human question followed by one Assistant answer per
call; and any call that fails at retrieval or generation leaves that
session's history unchanged. -/
theorem C2_history_append_atomicity :
    (∀ (calls : List (StreamEnv × String)) (st : PipelineState) (sid : String),
        historyOf st sid = [] →
        (∀ c ∈ calls, successEnv c.1 = true) →
        historyOf (runCalls st sid calls) sid
            = (calls.map (fun c => callPair c.2 c.1)).join
          ∧ (historyOf (runCalls st sid calls) sid).length = 2 * calls.length)
  ∧ (∀ (env : StreamEnv) (st : PipelineState) (sid q : String),
        successEnv env = false →
        historyOf (stream env st sid q).state sid = historyOf st sid) := by
  constructor
  · intro calls st sid hemp hsucc
    have h := runCalls_success_history calls st sid hsucc
    rw [hemp, List.nil_append] at h
    exact ⟨h, by rw [h]; exact callPair_join_length calls⟩
  · intro env st sid q hf
    exact stream_failure_history env st sid q hf

theorem C2_history_append_atomicity_witness :
    (historyOf (runCalls (RAG_Pipeline_init "m") "s"
          [(StreamEnv.mk (RetrievalOutcome.ok []) (GenOutcome.ok ["Hel", "lo"]), "q1"),
           (StreamEnv.mk (RetrievalOutcome.ok []) (GenOutcome.ok ["Bye"]), "q2")]) "s"
        = ([(StreamEnv.mk (RetrievalOutcome.ok []) (GenOutcome.ok ["Hel", "lo"]), "q1"),
            (StreamEnv.mk (RetrievalOutcome.ok []) (GenOutcome.ok ["Bye"]), "q2")].map
              (fun c => callPair c.2 c.1)).join
      ∧ (historyOf (runCalls (RAG_Pipeline_init "m") "s"
          [(StreamEnv.mk (RetrievalOutcome.ok []) (GenOutcome.ok ["Hel", "lo"]), "q1"),
           (StreamEnv.mk (RetrievalOutcome.ok []) (GenOutcome.ok ["Bye"]), "q2")]) "s").length
        = 2 * [(StreamEnv.mk (RetrievalOutcome.ok []) (GenOutcome.ok ["Hel", "lo"]), "q1"),
               (StreamEnv.mk (RetrievalOutcome.ok []) (GenOutcome.ok ["Bye"]), "q2")].length)
  ∧ historyOf (stream (StreamEnv.mk (RetrievalOutcome.err "down") (GenOutcome.ok ["x"]))
        (RAG_Pipeline_init "m") "s" "q3").state "s"
      = historyOf (RAG_Pipeline_init "m") "s" :=
  ⟨C2_history_append_atomicity.1
      [(StreamEnv.mk (RetrievalOutcome.ok []) (GenOutcome.ok ["Hel", "lo"]), "q1"),
       (StreamEnv.mk (RetrievalOutcome.ok []) (GenOutcome.ok ["Bye"]), "q2")]
      (RAG_Pipeline_init "m") "s" (by decide) (by decide),
   C2_history_append_atomicity.2
      (StreamEnv.mk (RetrievalOutcome.err "down") (GenOutcome.ok ["x"]))
      (RAG_Pipeline_init "m") "s" "q3" (by decide)⟩

/-- C5: when retrieval fails, the fully-consumed fragment sequence is
exactly the single retrieval-error fragment, and the generation chain
is never invoked. -/
theorem C5_retrieval_failure_terminal (env : StreamEnv) (st : PipelineState)
    (sid q e : String) (h : env.retrieval = RetrievalOutcome.err e) :
    (stream env st sid q).fragments = ["Error retrieving context: " ++ e]
  ∧ (stream env st sid q).genInvoked = false := by
  obtain ⟨r, g⟩ := env
  have h' : r = RetrievalOutcome.err e := h
  subst h'
  exact ⟨rfl, rfl⟩

theorem C5_retrieval_failure_terminal_witness :
    (stream (StreamEnv.mk (RetrievalOutcome.err "db down") (GenOutcome.ok ["x"]))
        (RAG_Pipeline_init "m") "s1" "hi").fragments
      = ["Error retrieving context: " ++ "db down"]
  ∧ (stream (StreamEnv.mk (RetrievalOutcome.err "db down") (GenOutcome.ok ["x"]))
        (RAG_Pipeline_init "m") "s1" "hi").genInvoked = false :=
  C5_retrieval_failure_terminal
    (StreamEnv.mk (RetrievalOutcome.err "db down") (GenOutcome.ok ["x"]))
    (RAG_Pipeline_init "m") "s1" "hi" "db down" rfl

/-- C8: `change_llm_type` leaves the session history store identical —
every session's message sequence is untouched — and a turn issued after
the swap injects exactly the pre-swap messages of its session into the
prompt. -/
theorem C8_change_llm_type_preserves_history :
    (∀ (st : PipelineState) (m : String), (change_llm_type st m).history = st.history)
  ∧ (∀ (st : PipelineState) (m : String) (env : StreamEnv) (sid q : String)
        (ctx : List Chunk), env.retrieval = RetrievalOutcome.ok ctx →
        (stream env (change_llm_type st m) sid q).promptHistory
          = some (historyOf st sid)) := by
  constructor
  · intro st m; rfl
  · intro st m env sid q ctx h
    rw [stream_promptHistory env (change_llm_type st m) sid q ctx h]
    rfl

theorem C8_change_llm_type_preserves_history_witness :
    (change_llm_type (PipelineState.mk "a" true "a" "a"
        [("s", [Message.mk Role.human "q0", Message.mk Role.assistant "a0"])]) "b").history
      = (PipelineState.mk "a" true "a" "a"
        [("s", [Message.mk Role.human "q0", Message.mk Role.assistant "a0"])]).history
  ∧ (stream (StreamEnv.mk (RetrievalOutcome.ok []) (GenOutcome.ok ["y"]))
        (change_llm_type (PipelineState.mk "a" true "a" "a"
          [("s", [Message.mk Role.human "q0", Message.mk Role.assistant "a0"])]) "b")
        "s" "q1").promptHistory
      = some (historyOf (PipelineState.mk "a" true "a" "a"
          [("s", [Message.mk Role.human "q0", Message.mk Role.assistant "a0"])]) "s") :=
  ⟨C8_change_llm_type_preserves_history.1 _ "b",
   C8_change_llm_type_preserves_history.2
      (PipelineState.mk "a" true "a" "a"
        [("s", [Message.mk Role.human "q0", Message.mk Role.assistant "a0"])])
      "b" (StreamEnv.mk (RetrievalOutcome.ok []) (GenOutcome.ok ["y"])) "s" "q1" [] rfl⟩

/-- C9: `clear_session_history` is idempotent: clearing an absent
session is a no-op, clearing twice equals clearing once, and after a
clear the session has no stored history. -/
theorem C9_clear_session_history_idempotent :
    (∀ (st : PipelineState) (sid : String),
        histLookup st.history sid = none → clear_session_history st sid = st)
  ∧ (∀ (st : PipelineState) (sid : String),
        clear_session_history (clear_session_history st sid) sid
          = clear_session_history st sid)
  ∧ (∀ (st : PipelineState) (sid : String),
        histLookup (clear_session_history st sid).history sid = none) := by
  have habs : ∀ (st : PipelineState) (sid : String),
      histLookup st.history sid = none → clear_session_history st sid = st := by
    intro st sid h
    unfold clear_session_history
    rw [h]
    rfl
  have hnone : ∀ (st : PipelineState) (sid : String),
      histLookup (clear_session_history st sid).history sid = none := by
    intro st sid
    unfold clear_session_history
    by_cases h : (histLookup st.history sid).isSome = true
    · simp only [h, if_true]
      exact histLookup_histRemove st.history sid
    · simp only [h, if_false]
      exact Option.not_isSome_iff_eq_none.mp h
  exact ⟨habs, fun st sid => habs _ _ (hnone st sid), hnone⟩

theorem C9_clear_session_history_idempotent_witness :
    clear_session_history (PipelineState.mk "m" true "m" "m"
        [("a", [Message.mk Role.human "x"])]) "b"
      = PipelineState.mk "m" true "m" "m" [("a", [Message.mk Role.human "x"])]
  ∧ clear_session_history (clear_session_history (PipelineState.mk "m" true "m" "m"
        [("a", [Message.mk Role.human "x"])]) "a") "a"
      = clear_session_history (PipelineState.mk "m" true "m" "m"
        [("a", [Message.mk Role.human "x"])]) "a"
  ∧ histLookup (clear_session_history (PipelineState.mk "m" true "m" "m"
        [("a", [Message.mk Role.human "x"])]) "a").history "a" = none :=
  ⟨C9_clear_session_history_idempotent.1 _ "b" (by decide),
   C9_clear_session_history_idempotent.2.1 _ "a",
   C9_clear_session_history_idempotent.2.2 _ "a"⟩

theorem catchAll_fst (e : BodyExit) : (catchAll e).1 = false := by
  cases e <;> rfl

theorem index_pdf_load_store (cfg : RAGConfig) (env : IngestEnv) (input : PdfInput)
    (temp : String) (fs : List String) (store : ChromaStoreState) :
    (index_pdf_load cfg env input temp fs store).store = store
  ∨ ∃ n, (index_pdf_load cfg env input temp fs store).exit = BodyExit.ok n := by
  unfold index_pdf_load
  cases hl : env.loadResult with
  | none => left; rfl
  | some docs =>
      cases hs : env.splitResult with
      | none => left; rfl
      | some texts =>
          by_cases ht : texts.isEmpty
          · left; simp [ht]
          · by_cases ha : env.addOk = true
            · right; simp [ht, ha]
            · left; simp [ht, ha]

theorem index_pdf_body_store (cfg : RAGConfig) (env : IngestEnv) (input : PdfInput)
    (fs : List String) (store : ChromaStoreState) :
    (index_pdf_body cfg env input fs store).store = store
  ∨ ∃ n, (index_pdf_body cfg env input fs store).exit = BodyExit.ok n := by
  unfold index_pdf_body
  cases input with
  | uploadedFile origName =>
      by_cases hrw : env.readOk && env.writeOk
      · simp only [hrw, if_true]
        exact index_pdf_load_store _ _ _ _ _ _
      · simp only [hrw]
        left; simp
  | path p => exact index_pdf_load_store _ _ _ _ _ _
  | rawBytes content =>
      by_cases hw : env.writeOk = true
      · simp only [hw, if_true]
        exact index_pdf_load_store _ _ _ _ _ _
      · simp only [hw]
        left; simp
  | other => left; rfl

theorem index_pdf_load_strategy (cfg : RAGConfig) (env : IngestEnv) (input : PdfInput)
    (temp : String) (fs : List String) (store : ChromaStoreState) :
    (index_pdf_load cfg env input temp fs store).strategy = none
  ∨ (index_pdf_load cfg env input temp fs store).strategy = some (splitterUsed cfg) := by
  unfold index_pdf_load
  cases hl : env.loadResult with
  | none => left; rfl
  | some docs =>
      cases hs : env.splitResult with
      | none => right; rfl
      | some texts =>
          by_cases ht : texts.isEmpty
          · right; simp [ht]
          · by_cases ha : env.addOk = true
            · right; simp [ht, ha]
            · right; simp [ht, ha]

theorem index_pdf_body_strategy (cfg : RAGConfig) (env : IngestEnv) (input : PdfInput)
    (fs : List String) (store : ChromaStoreState) :
    (index_pdf_body cfg env input fs store).strategy = none
  ∨ (index_pdf_body cfg env input fs store).strategy = some (splitterUsed cfg) := by
  unfold index_pdf_body
  cases input with
  | uploadedFile origName =>
      by_cases hrw : env.readOk && env.writeOk
      · simp only [hrw, if_true]
        exact index_pdf_load_strategy _ _ _ _ _ _
      · simp only [hrw]
        left; simp
  | path p => exact index_pdf_load_strategy _ _ _ _ _ _
  | rawBytes content =>
      by_cases hw : env.writeOk = true
      · simp only [hw, if_true]
        exact index_pdf_load_strategy _ _ _ _ _ _
      · simp only [hw]
        left; simp
  | other => left; rfl

/-- C3: `index_pdf` never lets an exception escape to the caller; when
the `try:` body raises (as it does for zero-byte or non-PDF content,
where the loader fails), the error is reported (logged) and the vector
store's chunks are exactly what they were before the call. -/
theorem C3_index_pdf_never_raises_store_unchanged :
    ∀ (cfg : RAGConfig) (env : IngestEnv) (input : PdfInput) (fs : List String)
      (store : ChromaStoreState),
      (index_pdf cfg env input fs store).raised = false
    ∧ ((index_pdf_body cfg env input fs store).exit = BodyExit.exn →
        (index_pdf cfg env input fs store).errorLogged = true
      ∧ (index_pdf cfg env input fs store).store = store) := by
  intro cfg env input fs store
  constructor
  · show (catchAll (index_pdf_body cfg env input fs store).exit).1 = false
    exact catchAll_fst _
  · intro hexn
    constructor
    · show (catchAll (index_pdf_body cfg env input fs store).exit).2 = true
      rw [hexn]
      rfl
    · show (index_pdf_body cfg env input fs store).store = store
      rcases index_pdf_body_store cfg env input fs store with h | ⟨n, h⟩
      · exact h
      · rw [hexn] at h
        exact absurd h (by simp)

theorem C3_index_pdf_never_raises_store_unchanged_witness :
    (index_pdf [] (IngestEnv.mk "/tmp/tmpq.pdf" true true none none true)
        (PdfInput.rawBytes []) [] (ChromaStoreState.mk [Chunk.mk "old" []])).raised = false
  ∧ ((index_pdf [] (IngestEnv.mk "/tmp/tmpq.pdf" true true none none true)
        (PdfInput.rawBytes []) [] (ChromaStoreState.mk [Chunk.mk "old" []])).errorLogged = true
    ∧ (index_pdf [] (IngestEnv.mk "/tmp/tmpq.pdf" true true none none true)
        (PdfInput.rawBytes []) [] (ChromaStoreState.mk [Chunk.mk "old" []])).store
      = ChromaStoreState.mk [Chunk.mk "old" []]) :=
  ⟨(C3_index_pdf_never_raises_store_unchanged [] (IngestEnv.mk "/tmp/tmpq.pdf" true true none none true)
      (PdfInput.rawBytes []) [] (ChromaStoreState.mk [Chunk.mk "old" []])).1,
   (C3_index_pdf_never_raises_store_unchanged [] (IngestEnv.mk "/tmp/tmpq.pdf" true true none none true)
      (PdfInput.rawBytes []) [] (ChromaStoreState.mk [Chunk.mk "old" []])).2 rfl⟩

/-- C4: counter to the claim, there is a failure path on which the
temporary file survives the call.  For an upload-handle input whose
`read()` raises, the `NamedTemporaryFile(delete=False)` has already
been created on disk but `temp_file_path` is assigned only after the
write, so the `finally:` cleanup (guarded by `temp_file_path`) skips
it: the call returns normally with the temp file still present. -/
theorem C4_temp_file_survives_read_failure :
    (index_pdf [] (IngestEnv.mk "/tmp/tmpabc123.pdf" false true none none true)
        (PdfInput.uploadedFile "doc.pdf") [] (ChromaStoreState.mk [])).fs
      = ["/tmp/tmpabc123.pdf"]
  ∧ (index_pdf [] (IngestEnv.mk "/tmp/tmpabc123.pdf" false true none none true)
        (PdfInput.uploadedFile "doc.pdf") [] (ChromaStoreState.mk [])).raised = false :=
  ⟨rfl, rfl⟩

/-- C6 counterexample: even for a configuration that explicitly asks
for a fixed-window splitter with `chunk_size=500, chunk_overlap=100`,
`index_pdf` constructs the semantic chunker — the fixed-window strategy
is not selectable, so the claimed two-strategy choice (and with it the
500/400 window guarantee) is false on the code. -/
theorem C6_counterexample_fixed_window_not_selectable :
    (index_pdf_body
        [("splitter", "fixed_window"), ("chunk_size", "500"), ("chunk_overlap", "100")]
        (IngestEnv.mk "/tmp/tmpc.pdf" true true (some ["page1"]) (some [Chunk.mk "t" []]) true)
        (PdfInput.path "doc.pdf") [] (ChromaStoreState.mk [])).strategy
      = some (SplitStrategy.semantic "gradient" 1)
  ∧ ((some (SplitStrategy.semantic "gradient" 1) : Option SplitStrategy)
      == some (SplitStrategy.fixedWindow 500 100)) = false :=
  ⟨rfl, by decide⟩

/-- C6 (amended): the segmenter has exactly one strategy — the
semantic chunker with gradient breakpoints and threshold amount 1 —
used regardless of configuration; whenever `index_pdf` constructs a
splitter it is that one. -/
theorem C6_semantic_strategy_only :
    (∀ cfg : RAGConfig, splitterUsed cfg = SplitStrategy.semantic "gradient" 1)
  ∧ (∀ (cfg : RAGConfig) (env : IngestEnv) (input : PdfInput) (fs : List String)
        (store : ChromaStoreState),
        (index_pdf_body cfg env input fs store).strategy = none
      ∨ (index_pdf_body cfg env input fs store).strategy
          = some (SplitStrategy.semantic "gradient" 1)) :=
  ⟨fun _ => rfl, fun cfg env input fs store => index_pdf_body_strategy cfg env input fs store⟩

/-- C7 counterexample: a fully successful ingestion that adds 2 chunks
to the vector store still returns `None` — not the chunk count, nor
any error value; `index_pdf`'s returns are all bare. -/
theorem C7_counterexample_no_chunk_count_returned :
    (index_pdf_body []
        (IngestEnv.mk "/tmp/tmpr.pdf" true true (some ["p1"])
          (some [Chunk.mk "alpha" [], Chunk.mk "beta" []]) true)
        (PdfInput.rawBytes [37]) [] (ChromaStoreState.mk [])).exit = BodyExit.ok 2
  ∧ (index_pdf []
        (IngestEnv.mk "/tmp/tmpr.pdf" true true (some ["p1"])
          (some [Chunk.mk "alpha" [], Chunk.mk "beta" []]) true)
        (PdfInput.rawBytes [37]) [] (ChromaStoreState.mk [])).store.docs.length = 2
  ∧ (index_pdf []
        (IngestEnv.mk "/tmp/tmpr.pdf" true true (some ["p1"])
          (some [Chunk.mk "alpha" [], Chunk.mk "beta" []]) true)
        (PdfInput.rawBytes [37]) [] (ChromaStoreState.mk [])).ret = none :=
  ⟨rfl, rfl, rfl⟩

/-- C7 (amended): `index_pdf` always returns `None` — success yields no
chunk count and failures are reported by logging, not by a returned
error value. -/
theorem C7_index_pdf_always_returns_none :
    ∀ (cfg : RAGConfig) (env : IngestEnv) (input : PdfInput) (fs : List String)
      (store : ChromaStoreState),
      (index_pdf cfg env input fs store).ret = none
    ∧ ((index_pdf_body cfg env input fs store).exit = BodyExit.exn →
        (index_pdf cfg env input fs store).errorLogged = true) := by
  intro cfg env input fs store
  refine ⟨rfl, fun hexn => ?_⟩
  show (catchAll (index_pdf_body cfg env input fs store).exit).2 = true
  rw [hexn]
  rfl

theorem C7_index_pdf_always_returns_none_witness :
    (index_pdf [] (IngestEnv.mk "/tmp/tmpw.pdf" true true none none true)
        PdfInput.other [] (ChromaStoreState.mk [])).ret = none
  ∧ (index_pdf [] (IngestEnv.mk "/tmp/tmpw.pdf" true true none none true)
        PdfInput.other [] (ChromaStoreState.mk [])).errorLogged = true :=
  ⟨(C7_index_pdf_always_returns_none [] (IngestEnv.mk "/tmp/tmpw.pdf" true true none none true)
      PdfInput.other [] (ChromaStoreState.mk [])).1,
   (C7_index_pdf_always_returns_none [] (IngestEnv.mk "/tmp/tmpw.pdf" true true none none true)
      PdfInput.other [] (ChromaStoreState.mk [])).2 rfl⟩

theorem ConfigReader_calls_registered (loadEnv : String → ConfigData)
    (inst : ConfigReaderInst) (fs : List String) :
    ConfigReader_calls loadEnv (some inst) fs = some inst := by
  induction fs with
  | nil => rfl
  | cons f rest ih => simpa [ConfigReader_calls, ConfigReader_call] using ih

/-- C10: `ConfigReader` is a process-wide singleton.  Once an instance
is registered, every later construction (with any `config_file`,
including the one done by `RAG_Indexing.__init__`) returns that first
instance and ignores its argument; only the very first construction's
`config_file` determines the loaded configuration. -/
theorem C10_configreader_singleton :
    (∀ (loadEnv : String → ConfigData) (inst : ConfigReaderInst) (f : String),
        ConfigReader_call loadEnv (some inst) f = (inst, some inst))
  ∧ (∀ (loadEnv : String → ConfigData) (f : String),
        (ConfigReader_call loadEnv none f).1.config_file = resolveConfigPath f)
  ∧ (∀ (loadEnv : String → ConfigData) (f1 : String) (fs : List String) (f : String),
        (ConfigReader_call loadEnv
            (ConfigReader_calls loadEnv (ConfigReader_call loadEnv none f1).2 fs) f).1
          = (ConfigReader_call loadEnv none f1).1)
  ∧ (∀ (loadEnv : String → ConfigData) (inst : ConfigReaderInst) (f : String),
        (RAG_Indexing_init_config loadEnv (some inst) f).1 = inst) := by
  refine ⟨fun loadEnv inst f => rfl, fun loadEnv f => rfl, ?_, fun loadEnv inst f => rfl⟩
  intro loadEnv f1 fs f
  show (ConfigReader_call loadEnv
      (ConfigReader_calls loadEnv
        (some (ConfigReaderInst.mk (resolveConfigPath f1)
          (loadEnv (resolveConfigPath f1)))) fs) f).1 = _
  rw [ConfigReader_calls_registered]
  rfl
